import Mathlib

set_option maxRecDepth 4000

/-!
Shallow embedding of the data-reshaping core of `src/dashboard.py` (the
"Northern Rockies Snow Report" dashboard): the name-resolution table
(`get_display_name`), the current-conditions builder (`load_latest_data`),
the 5-day chart aggregator (`prepare_chart_data`) and the SNOTEL history
reshaper (`parse_snotel_history`).

Modelling conventions:
* numeric report fields are rationals (`ℚ`), matching the exact arithmetic
  the claims exercise (`max`, comparisons against 6, sums, differences);
* a parsed local timestamp (`pd.to_datetime(...)` localized to
  America/Denver) is a pair `(calendar day : ℤ, time of day : ℚ)`; the
  pandas parser itself is external library code, so it enters the embedding
  as an abstract parameter `parse : String → Option (ℤ × ℚ)` and `NaT` is
  `none`;
* a pandas DataFrame is a `List` of records in row order; `pd.merge(...,
  how="left")` keyed on the master list is the explicit left join
  `mergedRows`; the multi-column `sort_values(..., ascending=[False, False,
  False])` (numpy lexsort, a stable sort with `na_position="last"`) is the
  stable insertion sort `sortB` by the explicit key order `keyLE`;
* Python string comparison (code-point lexicographic, used by
  `sorted(..., key=...)`) is `lexLe` on the underlying character lists, and
  `datetime.strptime(ts, "%Y-%m-%d %H:%M")` is `parseTimestamp`, following
  the pattern `_strptime` compiles: an exactly-four-digit year, 1-2 digit
  month/day/hour/minute fields (non-zero-padded accepted), and a
  whitespace run for the format's literal space;
* `prepare_chart_data` reads the history frame *uncoerced*, so a field
  missing from one document while present in another is a `NaN` cell;
  `getCell`/`pymax` reproduce `row.get(col, 0)`, `float(... or 0)` and
  Python float `max` on such cells;
* presentation-only columns of the frame (nws/snotel dicts, lifts, runs,
  surface, comments) are carried by no rule the claims mention and are
  omitted from the row records.
-/

/-! ### Generic list and string utilities -/

/-- Code-point comparison of characters, as Python compares the characters
of two strings. -/
def charLt (c d : Char) : Bool := c.toNat < d.toNat

/-- Lexicographic (code-point) `≤` on character lists: Python string `<=`. -/
def lexLe : List Char → List Char → Bool
  | [], _ => true
  | _ :: _, [] => false
  | c :: s, d :: t => if c.toNat = d.toNat then lexLe s t else charLt c d

/-- Lexicographic (code-point) `<` on character lists: Python string `<`. -/
def lexLt : List Char → List Char → Bool
  | [], [] => false
  | [], _ :: _ => true
  | _ :: _, [] => false
  | c :: s, d :: t => if c.toNat = d.toNat then lexLt s t else charLt c d

/-- Decimal digit value of a character, if it is a digit. -/
def charDigit (c : Char) : Option ℕ :=
  if 48 ≤ c.toNat ∧ c.toNat ≤ 57 then some (c.toNat - 48) else none

/-- Python's regex class `\s` for `str` patterns (what the whitespace in a
strptime format is compiled to, as `\s+`): ASCII whitespace 9-13 and 32,
the separators 28-31, and the Unicode whitespace code points. -/
def isPyWs (c : Char) : Bool :=
  let n := c.toNat
  (9 ≤ n && n ≤ 13) || n == 32 || (28 ≤ n && n ≤ 31) || n == 133 ||
  n == 160 || n == 5760 || (8192 ≤ n && n ≤ 8202) || n == 8232 ||
  n == 8233 || n == 8239 || n == 8287 || n == 12288

/-- Read greedily up to `n` leading digits, returning their values and the
rest of the input. -/
def takeDigitsUpTo : ℕ → List Char → List ℕ × List Char
  | 0, cs => ([], cs)
  | _ + 1, [] => ([], [])
  | n + 1, c :: t =>
    match charDigit c with
    | some d =>
      let r := takeDigitsUpTo n t
      (d :: r.1, r.2)
    | none => ([], c :: t)

/-- Decimal value of a digit list. -/
def digitsNum (ds : List ℕ) : ℕ := ds.foldl (fun a d => a * 10 + d) 0

/-- Consume one expected literal character. -/
def expectChar (c : Char) : List Char → Option (List Char)
  | [] => none
  | x :: t => if x = c then some t else none

/-- Drop leading whitespace characters. -/
def dropWs : List Char → List Char
  | [] => []
  | c :: t => if isPyWs c then dropWs t else c :: t

/-- Consume one-or-more whitespace characters (the `\s+` a literal space in
a strptime format is compiled to). -/
def skipWs1 : List Char → Option (List Char)
  | [] => none
  | c :: t => if isPyWs c then some (dropWs t) else none

/-- Concatenated image of a list under a list-valued function (the shape of
a row-multiplying join / `DataFrame` group construction). -/
def catMap {α β : Type} (f : α → List β) : List α → List β
  | [] => []
  | a :: t => f a ++ catMap f t

/-- Stable insertion of `a` into `l` under the Boolean preorder `lep`: `a`
is placed before the first element it may precede, so an element inserted
from earlier in the input stays before every element it ties with. -/
def insB {α : Type} (lep : α → α → Bool) (a : α) : List α → List α
  | [] => [a]
  | b :: t => if lep a b then a :: b :: t else b :: insB lep a t

/-- Stable insertion sort by the Boolean preorder `lep`; models the stable
(lexsort/mergesort) sorts used by `sorted` and `DataFrame.sort_values`. -/
def sortB {α : Type} (lep : α → α → Bool) : List α → List α
  | [] => []
  | a :: t => insB lep a (sortB lep t)

/-! ### Name resolution (`get_display_name`, dashboard.py lines 985-994) -/

/-- The static identifier-to-display-name table of `get_display_name`. -/
def name_map : List (String × String) :=
  [("LookoutPass", "Lookout Pass"), ("BigMountain", "Big Mountain"),
   ("LostTrail", "Lost Trail"), ("TetonPass", "Teton Pass"),
   ("Blacktail", "Blacktail"), ("Snowbowl", "Snowbowl"),
   ("Discovery", "Discovery"), ("Showdown", "Showdown"),
   ("BridgerBowl", "Bridger Bowl"), ("BigSky", "Big Sky"),
   ("RedLodge", "Red Lodge Mountain"), ("RedLodgeMountain", "Red Lodge Mountain"),
   ("GreatDivide", "Great Divide"), ("BearPaw", "Bear Paw"),
   ("SilverMountain", "Silver Mountain"), ("Schweitzer", "Schweitzer"),
   ("TurnerMountain", "Turner Mountain")]

/-- `get_display_name`: `name_map.get(resort_name, resort_name)` — a pure
lookup that passes unknown identifiers through unchanged. -/
def get_display_name (resort_name : String) : String :=
  ((name_map.find? (fun p => p.1 == resort_name)).map Prod.snd).getD resort_name

/-- The keys of the name-resolution table. -/
def nameMapKeys : List String := name_map.map (fun p => p.1)

/-! ### Master resort list (`RESORTS_DATA`, dashboard.py lines 36-54) -/

/-- The static 17-entry master list: display name, latitude, longitude. -/
def RESORTS_DATA : List (String × ℚ × ℚ) :=
  [("Snowbowl", 47.032417, -113.9915282),
   ("Discovery", 46.262206, -113.246187),
   ("Lookout Pass", 47.4531005, -115.706537),
   ("Big Mountain", 48.502127, -114.341252),
   ("Lost Trail", 45.695247, -113.965263),
   ("Teton Pass", 47.929804, -112.816723),
   ("Showdown", 46.837747, -110.715599),
   ("Blacktail", 48.011676, -114.365251),
   ("Bridger Bowl", 45.813919, -110.921873),
   ("Big Sky", 45.280943, -111.440644),
   ("Red Lodge Mountain", 45.181125, -109.354325),
   ("Maverick", 45.438286, -113.142233),
   ("Great Divide", 46.748900, -112.328513),
   ("Bear Paw", 48.162084, -109.679937),
   ("Silver Mountain", 47.499070, -116.119163),
   ("Turner Mountain", 48.609788, -115.648756),
   ("Schweitzer", 48.377785, -116.633436)]

/-! ### Current-conditions builder (`load_latest_data`, lines 996-1111) -/

/-- One raw Firestore report document for the latest snapshot date.
`none` in a numeric field models a value that is absent or non-numeric
(`pd.to_numeric(..., errors="coerce")` turns it into `NaN`); `none` in
`last_updated` models an absent field (`fillna("N/A")` applies). -/
structure RawReport where
  resort : String
  last_updated : Option String := none
  snow_24h_summit : Option ℚ := none
  snow_24h_base : Option ℚ := none
  base_depth : Option ℚ := none
  summit_depth : Option ℚ := none
  snow_overnight : Option ℚ := none
  temp_base : Option ℚ := none
  temp_summit : Option ℚ := none
  wind_speed : Option ℚ := none
deriving DecidableEq

/-- A merged row after the left join and the coercion/parse steps (lines
1048-1082), before the freshness rule and the derived fields. -/
structure PreRow where
  display_name : String
  lat : ℚ
  lon : ℚ
  snow_24h_summit : ℚ
  snow_24h_base : ℚ
  base_depth : ℚ
  summit_depth : ℚ
  snow_overnight : ℚ
  temp_base : ℚ
  temp_summit : ℚ
  wind_speed : ℚ
  last_updated : String
  last_updated_dt : Option (ℤ × ℚ)
deriving DecidableEq

/-- A finished current-conditions row. -/
structure CCRow where
  display_name : String
  lat : ℚ
  lon : ℚ
  snow_24h_summit : ℚ
  snow_24h_base : ℚ
  base_depth : ℚ
  summit_depth : ℚ
  snow_overnight : ℚ
  temp_base : ℚ
  temp_summit : ℚ
  wind_speed : ℚ
  last_updated : String
  last_updated_dt : Option (ℤ × ℚ)
  snow_24h_display : ℚ
  is_powder : Bool
  has_report : Bool
deriving DecidableEq

/-- Coercion of one (master entry, optional matched report) pair into a
merged row: numeric `NaN` becomes `0` (`fillna(0)`), a missing
`last_updated` becomes the string `"N/A"` (`fillna("N/A")`), and
`last_updated_dt` is the pandas parse of that filled string. -/
def toPre (parse : String → Option (ℤ × ℚ)) (m : String × ℚ × ℚ)
    (r : Option RawReport) : PreRow :=
  match r with
  | none =>
    { display_name := m.1, lat := m.2.1, lon := m.2.2,
      snow_24h_summit := 0, snow_24h_base := 0, base_depth := 0,
      summit_depth := 0, snow_overnight := 0, temp_base := 0,
      temp_summit := 0, wind_speed := 0,
      last_updated := "N/A", last_updated_dt := parse "N/A" }
  | some rr =>
    { display_name := m.1, lat := m.2.1, lon := m.2.2,
      snow_24h_summit := rr.snow_24h_summit.getD 0,
      snow_24h_base := rr.snow_24h_base.getD 0,
      base_depth := rr.base_depth.getD 0,
      summit_depth := rr.summit_depth.getD 0,
      snow_overnight := rr.snow_overnight.getD 0,
      temp_base := rr.temp_base.getD 0,
      temp_summit := rr.temp_summit.getD 0,
      wind_speed := rr.wind_speed.getD 0,
      last_updated := rr.last_updated.getD "N/A",
      last_updated_dt := parse (rr.last_updated.getD "N/A") }

/-- The raw reports whose resolved display name equals the master entry's
name — the join partners of that master row. -/
def matchesFor (raws : List RawReport) (m : String × ℚ × ℚ) : List RawReport :=
  raws.filter (fun r => decide (get_display_name r.resort = m.1))

/-- The merged rows one master entry contributes: its matches in feed
order, or a single all-default row when nothing joined (`how="left"`). -/
def rowsFor (parse : String → Option (ℤ × ℚ)) (raws : List RawReport)
    (m : String × ℚ × ℚ) : List PreRow :=
  match matchesFor raws m with
  | [] => [toPre parse m none]
  | r :: rs => (r :: rs).map (fun rr => toPre parse m (some rr))

/-- The left join of the master list with the resolved raw feed, in master
order (lines 1044-1046 plus the coercion block). -/
def mergedRows (parse : String → Option (ℤ × ℚ)) (raws : List RawReport) :
    List PreRow :=
  catMap (rowsFor parse raws) RESORTS_DATA

/-- The freshness mask of line 1091: `last_updated_dt.dt.date != today`,
with `NaT` (a null parse) counting as not-today. -/
def staleMask (today : ℤ) (dt : Option (ℤ × ℚ)) : Bool :=
  match dt with
  | none => true
  | some d => decide (d.1 ≠ today)

/-- Freshness zeroing and derived fields (lines 1087-1101): rows not
updated today get `snow_24h_summit`, `snow_overnight`, `snow_24h_base`
zeroed; then `snow_24h_display = max(summit, base)`, `is_powder` iff the
display value is at least 6, and `has_report` iff `last_updated` differs
from the `"N/A"` fill value. -/
def applyRules (today : ℤ) (p : PreRow) : CCRow :=
  let stale := staleMask today p.last_updated_dt
  let s := if stale then 0 else p.snow_24h_summit
  let b := if stale then 0 else p.snow_24h_base
  let ov := if stale then 0 else p.snow_overnight
  let disp := max s b
  { display_name := p.display_name, lat := p.lat, lon := p.lon,
    snow_24h_summit := s, snow_24h_base := b,
    base_depth := p.base_depth, summit_depth := p.summit_depth,
    snow_overnight := ov, temp_base := p.temp_base,
    temp_summit := p.temp_summit, wind_speed := p.wind_speed,
    last_updated := p.last_updated, last_updated_dt := p.last_updated_dt,
    snow_24h_display := disp,
    is_powder := decide ((6 : ℚ) ≤ disp),
    has_report := decide (p.last_updated ≠ "N/A") }

/-- The three-column sort key of lines 1103-1109: `has_report`, the parsed
report calendar date, the display snow amount. -/
def rowKey (r : CCRow) : Bool × Option ℤ × ℚ :=
  (r.has_report, r.last_updated_dt.map Prod.fst, r.snow_24h_display)

/-- Strict "comes first" on the date column for a descending sort with
`na_position="last"`: later dates first, a null date after every real
date. -/
def dateLT : Option ℤ → Option ℤ → Bool
  | some x, some y => decide (y < x)
  | some _, none => true
  | none, some _ => false
  | none, none => false

/-- The sort key order of `sort_values(["has_report", "last_updated_date",
"snow_24h_display"], ascending=[False, False, False])`: `has_report`
descending, then date descending (nulls last), then display snow
descending. -/
def keyLE (a b : Bool × Option ℤ × ℚ) : Bool :=
  if a.1 = b.1 then
    (if a.2.1 = b.2.1 then decide (b.2.2 ≤ a.2.2) else dateLT a.2.1 b.2.1)
  else a.1

/-- Row comparison induced by the sort key. -/
def lepRow (r1 r2 : CCRow) : Bool := keyLE (rowKey r1) (rowKey r2)

/-- `load_latest_data` with a live store handle: left-join the master list
with the latest-date feed, coerce, apply the freshness rule and derived
fields, and stable-sort by the three-column key.  `parse` abstracts
`pd.to_datetime(..., errors="coerce")` plus time-zone localization, and
`today` is `datetime.now(LOCAL_TZ).date()`. -/
def load_latest_data (parse : String → Option (ℤ × ℚ)) (today : ℤ)
    (raws : List RawReport) : List CCRow :=
  sortB lepRow ((mergedRows parse raws).map (applyRules today))

/-- `load_latest_data` with `_db is None` (lines 1002-1020): the master
rows with zero/sentinel defaults, `last_updated = "No Report"`, and no
sort. -/
def load_latest_data_noDB : List CCRow :=
  RESORTS_DATA.map (fun m =>
    { display_name := m.1, lat := m.2.1, lon := m.2.2,
      snow_24h_summit := 0, snow_24h_base := 0, base_depth := 0,
      summit_depth := 0, snow_overnight := 0, temp_base := 0,
      temp_summit := 0, wind_speed := 0,
      last_updated := "No Report", last_updated_dt := none,
      snow_24h_display := 0, is_powder := false, has_report := false })

/-! ### 5-day chart aggregator (`prepare_chart_data`, lines 1157-1186) -/

/-- One row of the multi-day history frame built by
`load_historical_data`: the raw document plus its query date and its
pandas-parsed `last_updated_dt` (both already in the fixed local zone). -/
structure HistRec where
  resort : String
  query_date : ℤ
  last_updated_dt : Option (ℤ × ℚ) := none
  snow_24h_summit : Option ℚ := none
  snow_24h_base : Option ℚ := none
deriving DecidableEq

/-- One chart point: resort, day, attributed snow, denormalized total. -/
structure ChartPoint where
  display_name : String
  date : ℤ
  snow : ℚ
  total_snow : ℚ
deriving DecidableEq

/-- First-occurrence deduplication, as `Series.unique()` orders it. -/
def dedupFirst : List String → List String
  | [] => []
  | x :: t => x :: (dedupFirst t).filter (fun y => decide (y ≠ x))

/-- The five trailing query days, oldest to newest (`range(4, -1, -1)`). -/
def chartDays (today : ℤ) : List ℤ :=
  [today - 4, today - 3, today - 2, today - 1, today]

/-- Whether a parsed report timestamp falls on calendar day `d`
(`row["last_updated_dt"].date() == d`; a `NaT` timestamp never does). -/
def sameReportDay (dt : Option (ℤ × ℚ)) (d : ℤ) : Bool :=
  match dt with
  | some t => decide (t.1 = d)
  | none => false

/-- The value `row.get(col, 0)` reads from the *uncoerced* history frame
(`prepare_chart_data` applies no `pd.to_numeric(...).fillna(0)`): the
document's own value when the field is present; `NaN` — modelled `none` —
when this document lacks the field but the frame has the column because
some other document supplies it; and the `.get` default `0` when no
document in the frame has the field at all (no such column exists).  The
subsequent `float(... or 0)` leaves each of these unchanged: `NaN` is
truthy and stays `NaN`, a `0` cell stays `0`. -/
def getCell (hist : List HistRec) (f : HistRec → Option ℚ) (h : HistRec) :
    Option ℚ :=
  match f h with
  | some v => some v
  | none => if hist.any (fun h2 => (f h2).isSome) then none else some 0

/-- Python's two-argument `max` on possibly-NaN floats: it returns the
first argument unless the second compares greater, and every comparison
with `NaN` is false — so a `NaN` first argument wins and a `NaN` second
argument loses. -/
def pymax (a b : Option ℚ) : Option ℚ :=
  match a, b with
  | none, _ => none
  | some x, none => some x
  | some x, some y => some (max x y)

/-- The snow attributed to resort `r` on day `d`: from the first history
row of that resort whose query date is `d`, take
`max(raw_summit, raw_base)` of the uncoerced cells under Python float
semantics (a `NaN` summit cell makes the maximum `NaN`); chart that value
only if it is a number greater than 0 (`nan > 0` is false) and the row's
own `last_updated` timestamp falls on the same day; otherwise the day
contributes 0. -/
def dayValue (hist : List HistRec) (r : String) (d : ℤ) : ℚ :=
  match (hist.filter (fun h => decide (get_display_name h.resort = r))).find?
      (fun h => decide (h.query_date = d)) with
  | none => 0
  | some h =>
    match pymax (getCell hist (fun x => x.snow_24h_summit) h)
        (getCell hist (fun x => x.snow_24h_base) h) with
    | none => 0
    | some raw =>
      if decide (0 < raw) && sameReportDay h.last_updated_dt d then raw else 0

/-- One pre-total chart point for resort `r` on day `d`. -/
def mkPt (hist : List HistRec) (r : String) (d : ℤ) : ChartPoint :=
  { display_name := r, date := d, snow := dayValue hist r d, total_snow := 0 }

/-- The per-resort, per-day points in loop order (resorts outer, the five
days oldest-to-newest inner), before totals are attached. -/
def basePoints (today : ℤ) (hist : List HistRec) (resorts : List String) :
    List ChartPoint :=
  catMap (fun r => (chartDays today).map (mkPt hist r)) resorts

/-- Set a point's total to the sum of the snow values of its resort's
points in `base`. -/
def attachTotal (base : List ChartPoint) (p : ChartPoint) : ChartPoint :=
  { p with total_snow :=
      ((base.filter (fun q => decide (q.display_name = p.display_name))).map
        (fun q => q.snow)).sum }

/-- Attach to every point the sum of its resort's snow values (the
`groupby("display_name").sum()` merge, which keeps row order). -/
def withTotals (base : List ChartPoint) : List ChartPoint :=
  base.map (attachTotal base)

/-- `prepare_chart_data`: empty history or an empty current table yield an
empty frame; otherwise every resort of the current table (first-occurrence
deduplicated) gets one point per trailing day plus the running total. -/
def prepare_chart_data (today : ℤ) (hist : List HistRec)
    (current : List CCRow) : List ChartPoint :=
  if hist.isEmpty || current.isEmpty then []
  else withTotals (basePoints today hist
    (dedupFirst (current.map (fun c => c.display_name))))

/-! ### SNOTEL history reshaper (`parse_snotel_history`, lines 271-319) -/

/-- One raw SNOTEL history entry from the document store. -/
structure HistEntry where
  timestamp : Option String := none
  snow_depth : Option ℚ := none
  temp : Option ℚ := none
deriving DecidableEq

/-- A wall-clock timestamp as `strptime(ts, "%Y-%m-%d %H:%M")` returns it. -/
structure SnotelTime where
  year : ℕ
  month : ℕ
  day : ℕ
  hour : ℕ
  minute : ℕ
deriving DecidableEq

/-- Strictly monotone flattening of a timestamp; `chronKey s < chronKey t`
says `s` is chronologically earlier than `t` (field ranges are within the
mixed-radix bases). -/
def chronKey (t : SnotelTime) : ℕ :=
  (((t.year * 13 + t.month) * 32 + t.day) * 24 + t.hour) * 60 + t.minute

/-- Gregorian leap-year rule, as `datetime` validates dates. -/
def isLeapYear (y : ℕ) : Bool :=
  (y % 4 == 0 && y % 100 != 0) || y % 400 == 0

/-- Days in a month, as `datetime` validates dates. -/
def daysInMonth (y mo : ℕ) : ℕ :=
  if mo = 2 then (if isLeapYear y then 29 else 28)
  else if mo = 4 ∨ mo = 6 ∨ mo = 9 ∨ mo = 11 then 30
  else 31

/-- Construction of the parsed datetime: `datetime(...)` raises
`ValueError` (here `none`) on a month, day, hour or minute outside its
range, a day beyond the month's length, or a year below `MINYEAR = 1`; a
four-digit year is always at most `MAXYEAR = 9999`. -/
def mkTime (y mo d h mi : ℕ) : Option SnotelTime :=
  if 1 ≤ y ∧ 1 ≤ mo ∧ mo ≤ 12 ∧ 1 ≤ d ∧ d ≤ daysInMonth y mo ∧
     h ≤ 23 ∧ mi ≤ 59
  then some { year := y, month := mo, day := d, hour := h, minute := mi }
  else none

/-- `datetime.strptime(s, "%Y-%m-%d %H:%M")`, following the pattern
`_strptime` compiles for this format: `%Y` is exactly four digits; `%m`,
`%d`, `%H`, `%M` are one or two digits (non-zero-padded accepted); the
literal space matches a run of one-or-more whitespace characters (`\s+`);
`-` and `:` are exact literals; nothing may remain after the minute
("unconverted data" raises); and the field values must form a valid
datetime.  Failure is `none` (the Python `ValueError`).

The relaxed numeric patterns `_strptime` really uses (such as
`1[0-2]|0[1-9]|[1-9]` for `%m`) accept exactly the same strings as
greedy 1-2 digit reads followed by these range checks, because the
character after each numeric field (`-`, `:`, whitespace, end of input)
is never a digit, so regex backtracking cannot shorten a field. -/
def parseTimestamp (s : String) : Option SnotelTime :=
  let py := takeDigitsUpTo 4 s.data
  if py.1.length = 4 then
    match expectChar '-' py.2 with
    | none => none
    | some r2 =>
      let pm := takeDigitsUpTo 2 r2
      if 1 ≤ pm.1.length then
        match expectChar '-' pm.2 with
        | none => none
        | some r4 =>
          let pd := takeDigitsUpTo 2 r4
          if 1 ≤ pd.1.length then
            match skipWs1 pd.2 with
            | none => none
            | some r6 =>
              let ph := takeDigitsUpTo 2 r6
              if 1 ≤ ph.1.length then
                match expectChar ':' ph.2 with
                | none => none
                | some r8 =>
                  let pmi := takeDigitsUpTo 2 r8
                  if 1 ≤ pmi.1.length ∧ pmi.2 = [] then
                    mkTime (digitsNum py.1) (digitsNum pm.1) (digitsNum pd.1)
                      (digitsNum ph.1) (digitsNum pmi.1)
                  else none
              else none
          else none
      else none
  else none

/-- The sort key of `sorted(history_list, key=lambda x: x.get('timestamp',
''))`: the timestamp string (empty when missing), as characters. -/
def tsKeyOf (e : HistEntry) : List Char := (e.timestamp.getD "").data

/-- Entry comparison by timestamp string. -/
def lepHist (e1 e2 : HistEntry) : Bool := lexLe (tsKeyOf e1) (tsKeyOf e2)

/-- The stable sort of the history list by timestamp string. -/
def sortHist (hist : List HistEntry) : List HistEntry := sortB lepHist hist

/-- One reshaped history row (`time`, `total_depth`, `hourly_snow`,
`temp`). -/
structure SnotelRow where
  time : SnotelTime
  total_depth : Option ℚ := none
  hourly_snow : ℚ
  temp : Option ℚ := none
deriving DecidableEq

/-- The parsed timestamp of an entry: `none` when the timestamp is missing,
empty, or fails to parse — exactly the entries the loop `continue`s past. -/
def entryTime (e : HistEntry) : Option SnotelTime :=
  match e.timestamp with
  | none => none
  | some ts => parseTimestamp ts

/-- The hourly-snow delta: a positive increase from the previous observed
depth, clamped to 0 on a decrease (settling) or missing data. -/
def hourlyFrom (prev dep : Option ℚ) : ℚ :=
  match prev, dep with
  | some p, some d => if 0 < d - p then d - p else 0
  | _, _ => 0

/-- The previous-depth state after an entry: updated only when the entry
carries a depth. -/
def nextPrev (prev dep : Option ℚ) : Option ℚ :=
  match dep with
  | some d => some d
  | none => prev

/-- The main loop of `parse_snotel_history`, threading the previous
observed depth through the timestamp-sorted entries and skipping entries
without a parseable timestamp. -/
def processEntries : Option ℚ → List HistEntry → List SnotelRow
  | _, [] => []
  | prev, e :: rest =>
    match entryTime e with
    | none => processEntries prev rest
    | some dt =>
      { time := dt, total_depth := e.snow_depth,
        hourly_snow := hourlyFrom prev e.snow_depth, temp := e.temp }
        :: processEntries (nextPrev prev e.snow_depth) rest

/-- `parse_snotel_history`: sort by timestamp string, then run the loop. -/
def parse_snotel_history (history_list : List HistEntry) : List SnotelRow :=
  processEntries none (sortHist history_list)

/-! ### Concrete inputs used by witnesses and counterexamples -/

/-- A parse that fails on every string (every `last_updated` is
unparseable, as `pd.to_datetime(..., errors="coerce")` on junk). -/
def parse0 : String → Option (ℤ × ℚ) := fun _ => none

/-- The sorted output for no raw reports at all. -/
def outEmpty : List CCRow := load_latest_data parse0 0 []

/-- Two raw reports for the same resort on the latest date. -/
def rawDupA : RawReport := { resort := "BigSky", snow_24h_summit := some 3 }

/-- Second duplicate report for the same resort. -/
def rawDupB : RawReport := { resort := "BigSky", snow_24h_summit := some 8 }

/-- A parse sending one fixed string to a timestamp 365 days before the
`today` value 1000 used with it. -/
def parseC2 : String → Option (ℤ × ℚ) :=
  fun s => if s = "2024-10-12 08:00" then some (635, 8) else none

/-- A report last updated one full year ago, with nonzero standing
depths. -/
def rawC2 : RawReport :=
  { resort := "BigSky", last_updated := some "2024-10-12 08:00",
    snow_24h_summit := some 4, base_depth := some 50, summit_depth := some 60 }

/-- A parse sending one fixed string to a timestamp one day after the
`today` value 1000 used with it. -/
def parseC3 : String → Option (ℤ × ℚ) :=
  fun s => if s = "2025-10-13 10:00" then some (1001, 10) else none

/-- A report whose self-reported timestamp is dated tomorrow. -/
def rawC3 : RawReport :=
  { resort := "BigSky", last_updated := some "2025-10-13 10:00",
    snow_24h_summit := some 10 }

/-- A parse sending one fixed string to a timestamp on the `today` value
900 used with it. -/
def parseW3 : String → Option (ℤ × ℚ) :=
  fun s => if s = "2025-12-01 06:00" then some (900, 6) else none

/-- A fresh same-day report. -/
def rawW3 : RawReport :=
  { resort := "BigSky", last_updated := some "2025-12-01 06:00",
    snow_24h_summit := some 7, snow_24h_base := some 5 }

/-- A report whose `last_updated` is present but unparseable. -/
def rawC6 : RawReport :=
  { resort := "BigSky", last_updated := some "garbage",
    snow_24h_summit := some 3 }

/-- A report for a resort absent from the name-resolution table. -/
def rawC8 : RawReport :=
  { resort := "CrystalMtn", last_updated := some "2025-12-01 06:00",
    snow_24h_summit := some 12 }

/-- A hand-made current-conditions row with integer coordinates, used as a
one-row current table for the chart claims. -/
def ccW : CCRow :=
  { display_name := "Big Sky", lat := 0, lon := 0,
    snow_24h_summit := 0, snow_24h_base := 0, base_depth := 0,
    summit_depth := 0, snow_overnight := 0, temp_base := 0,
    temp_summit := 0, wind_speed := 0,
    last_updated := "N/A", last_updated_dt := none,
    snow_24h_display := 0, is_powder := false, has_report := false }

/-- One history row for Big Sky, query day 0, reported the same day. -/
def histW : List HistRec :=
  [{ resort := "BigSky", query_date := 0, last_updated_dt := some (0, 6),
     snow_24h_summit := some 4, snow_24h_base := some 2 }]

/-- A history frame in which the Big Sky document lacks its
`snow_24h_summit` field while another document supplies that column: the
Big Sky summit cell is `NaN`, poisoning the Python `max` although the
base value 5 is positive. -/
def histN : List HistRec :=
  [{ resort := "BigSky", query_date := 0, last_updated_dt := some (0, 6),
     snow_24h_base := some 5 },
   { resort := "Snowbowl", query_date := 0, last_updated_dt := some (0, 7),
     snow_24h_summit := some 3 }]

/-- Two SNOTEL entries whose timestamp strings sort against chronological
order: strptime accepts the non-zero-padded month of the September entry,
but as a string it sorts after the October one. -/
def histC10 : List HistEntry :=
  [{ timestamp := some "2025-9-01 10:00", snow_depth := some 5 },
   { timestamp := some "2025-10-01 10:00", snow_depth := some 10 }]

/-- Two well-formed consecutive hourly SNOTEL entries. -/
def histW10 : List HistEntry :=
  [{ timestamp := some "2025-11-26 10:00", snow_depth := some 10, temp := some 20 },
   { timestamp := some "2025-11-26 11:00", snow_depth := some 12, temp := some 21 }]

/-! ### Generic lemmas about the stable sort -/

theorem insB_perm {α : Type} (lep : α → α → Bool) (a : α) (l : List α) :
    List.Perm (insB lep a l) (a :: l) := by
  induction l with
  | nil => simp [insB]
  | cons b t ih =>
    by_cases hab : lep a b = true
    · simp [insB, hab]
    · simp only [insB, if_neg hab]
      exact (List.Perm.cons b ih).trans (List.Perm.swap a b t)

theorem sortB_perm {α : Type} (lep : α → α → Bool) (l : List α) :
    List.Perm (sortB lep l) l := by
  induction l with
  | nil => simp [sortB]
  | cons a t ih => exact (insB_perm lep a (sortB lep t)).trans (List.Perm.cons a ih)

theorem pairwise_insB {α : Type} (lep : α → α → Bool)
    (htot : ∀ x y, lep x y = true ∨ lep y x = true)
    (htrans : ∀ x y z, lep x y = true → lep y z = true → lep x z = true)
    (a : α) (l : List α)
    (hl : List.Pairwise (fun u v => lep u v = true) l) :
    List.Pairwise (fun u v => lep u v = true) (insB lep a l) := by
  induction l with
  | nil => simp [insB]
  | cons b t ih =>
    obtain ⟨hbt, ht⟩ := List.pairwise_cons.mp hl
    by_cases hab : lep a b = true
    · simp only [insB, if_pos hab]
      refine List.pairwise_cons.mpr ⟨?_, hl⟩
      intro x hx
      rcases List.mem_cons.mp hx with h | h
      · exact h ▸ hab
      · exact htrans a b x hab (hbt x h)
    · have hba : lep b a = true := (htot a b).resolve_left hab
      simp only [insB, if_neg hab]
      refine List.pairwise_cons.mpr ⟨?_, ih ht⟩
      intro x hx
      have hx2 : x = a ∨ x ∈ t := by
        simpa using (insB_perm lep a t).mem_iff.mp hx
      rcases hx2 with rfl | h
      · exact hba
      · exact hbt x h

theorem pairwise_sortB {α : Type} (lep : α → α → Bool)
    (htot : ∀ x y, lep x y = true ∨ lep y x = true)
    (htrans : ∀ x y z, lep x y = true → lep y z = true → lep x z = true)
    (l : List α) :
    List.Pairwise (fun u v => lep u v = true) (sortB lep l) := by
  induction l with
  | nil => simp [sortB]
  | cons a t ih => exact pairwise_insB lep htot htrans a (sortB lep t) ih

theorem filter_insB {α K : Type} [DecidableEq K] (kle : K → K → Bool) (key : α → K)
    (hrefl : ∀ k, kle k k = true) (a : α) (l : List α) (c : K) :
    (insB (fun x y => kle (key x) (key y)) a l).filter (fun x => decide (key x = c))
      = if key a = c
        then a :: l.filter (fun x => decide (key x = c))
        else l.filter (fun x => decide (key x = c)) := by
  induction l with
  | nil =>
    by_cases hac : key a = c <;> simp [insB, List.filter, hac]
  | cons b t ih =>
    by_cases hab : kle (key a) (key b) = true
    · rw [show insB (fun x y => kle (key x) (key y)) a (b :: t) = a :: b :: t from by
        simp [insB, hab]]
      by_cases hac : key a = c <;> simp [List.filter_cons, hac]
    · rw [show insB (fun x y => kle (key x) (key y)) a (b :: t)
          = b :: insB (fun x y => kle (key x) (key y)) a t from by simp [insB, hab]]
      have hne : key a ≠ key b := fun he => hab (he ▸ hrefl (key a))
      by_cases hbc : key b = c
      · have hac : ¬ key a = c := fun h => hne (h.trans hbc.symm)
        simp [List.filter_cons, hbc, hac, ih]
      · by_cases hac : key a = c <;>
          simp [List.filter_cons, hbc, hac, ih]

theorem filter_sortB {α K : Type} [DecidableEq K] (kle : K → K → Bool) (key : α → K)
    (hrefl : ∀ k, kle k k = true) (l : List α) (c : K) :
    (sortB (fun x y => kle (key x) (key y)) l).filter (fun x => decide (key x = c))
      = l.filter (fun x => decide (key x = c)) := by
  induction l with
  | nil => simp [sortB]
  | cons a t ih =>
    by_cases hac : key a = c <;>
      simp [sortB, filter_insB kle key hrefl, List.filter_cons, hac, ih]

theorem mem_catMap {α β : Type} (f : α → List β) (l : List α) (b : β) :
    b ∈ catMap f l ↔ ∃ a ∈ l, b ∈ f a := by
  induction l with
  | nil => simp [catMap]
  | cons x t ih => simp [catMap, ih]

/-! ### Order properties of the comparison keys -/

theorem lexLe_refl (s : List Char) : lexLe s s = true := by
  induction s with
  | nil => rfl
  | cons c t ih => simp [lexLe, ih]

theorem lexLe_total (s t : List Char) : lexLe s t = true ∨ lexLe t s = true := by
  induction s generalizing t with
  | nil => left; rfl
  | cons c s ih =>
    cases t with
    | nil => right; rfl
    | cons d t =>
      by_cases h : c.toNat = d.toNat
      · simp only [lexLe]
        rw [if_pos h, if_pos h.symm]
        exact ih t
      · simp [lexLe, h, Ne.symm h, charLt]

theorem lexLe_trans (s t u : List Char) (hst : lexLe s t = true)
    (htu : lexLe t u = true) : lexLe s u = true := by
  induction s generalizing t u with
  | nil => rfl
  | cons c s ih =>
    cases t with
    | nil => simp [lexLe] at hst
    | cons d t =>
      cases u with
      | nil => simp [lexLe] at htu
      | cons e u =>
        simp only [lexLe] at hst htu ⊢
        by_cases h1 : c.toNat = d.toNat
        · rw [if_pos h1] at hst
          by_cases h2 : d.toNat = e.toNat
          · rw [if_pos h2] at htu
            rw [if_pos (h1.trans h2)]
            exact ih t u hst htu
          · rw [if_neg h2] at htu
            rw [if_neg (h1 ▸ h2)]
            simp only [charLt, decide_eq_true_eq] at htu ⊢
            omega
        · rw [if_neg h1] at hst
          by_cases h2 : d.toNat = e.toNat
          · rw [if_pos h2] at htu
            rw [if_neg (fun h => h1 (h.trans h2.symm))]
            simp only [charLt, decide_eq_true_eq] at hst ⊢
            omega
          · rw [if_neg h2] at htu
            simp only [charLt, decide_eq_true_eq] at hst htu
            have h3 : ¬ c.toNat = e.toNat := by omega
            rw [if_neg h3]
            simp only [charLt, decide_eq_true_eq]
            omega

theorem dateLT_trans {x y z : Option ℤ} (h1 : dateLT x y = true)
    (h2 : dateLT y z = true) : x ≠ z ∧ dateLT x z = true := by
  cases x <;> cases y <;> cases z <;>
    simp_all [dateLT] <;> omega

theorem keyLE_refl (a : Bool × Option ℤ × ℚ) : keyLE a a = true := by
  simp [keyLE]

theorem keyLE_total (a b : Bool × Option ℤ × ℚ) :
    keyLE a b = true ∨ keyLE b a = true := by
  obtain ⟨a1, a2, a3⟩ := a
  obtain ⟨b1, b2, b3⟩ := b
  simp only [keyLE]
  by_cases h1 : a1 = b1
  · rw [if_pos h1, if_pos h1.symm]
    by_cases h2 : a2 = b2
    · rw [if_pos h2, if_pos h2.symm]
      simpa using le_total b3 a3
    · rw [if_neg h2, if_neg (Ne.symm h2)]
      cases a2 <;> cases b2 <;> simp_all [dateLT] <;> omega
  · rw [if_neg h1, if_neg (Ne.symm h1)]
    cases a1 <;> cases b1 <;> simp_all

theorem keyLE_trans (a b c : Bool × Option ℤ × ℚ) (hab : keyLE a b = true)
    (hbc : keyLE b c = true) : keyLE a c = true := by
  obtain ⟨a1, a2, a3⟩ := a
  obtain ⟨b1, b2, b3⟩ := b
  obtain ⟨c1, c2, c3⟩ := c
  simp only [keyLE] at hab hbc ⊢
  by_cases h1 : a1 = b1 <;> by_cases h2 : b1 = c1
  · rw [if_pos h1] at hab
    rw [if_pos h2] at hbc
    rw [if_pos (h1.trans h2)]
    by_cases h3 : a2 = b2 <;> by_cases h4 : b2 = c2
    · rw [if_pos h3] at hab
      rw [if_pos h4] at hbc
      rw [if_pos (h3.trans h4)]
      simp only [decide_eq_true_eq] at hab hbc ⊢
      exact le_trans hbc hab
    · rw [if_pos h3] at hab
      rw [if_neg h4] at hbc
      rw [if_neg (h3 ▸ h4)]
      rw [h3]
      exact hbc
    · rw [if_neg h3] at hab
      rw [if_pos h4] at hbc
      rw [if_neg (fun h => h3 (h.trans h4.symm))]
      rw [← h4]
      exact hab
    · rw [if_neg h3] at hab
      rw [if_neg h4] at hbc
      obtain ⟨hne, hlt⟩ := dateLT_trans hab hbc
      rw [if_neg hne]
      exact hlt
  · rw [if_pos h1] at hab
    rw [if_neg h2] at hbc
    rw [if_neg (h1 ▸ h2)]
    exact h1.trans hbc
  · rw [if_neg h1] at hab
    rw [if_neg (fun h => h1 (h.trans h2.symm))]
    exact hab
  · rw [if_neg h1] at hab
    rw [if_neg h2] at hbc
    exact absurd (hab.trans hbc.symm) h1

/-! ### Helper lemmas about the current-conditions pipeline -/

theorem applyRules_display_name (today : ℤ) (p : PreRow) :
    (applyRules today p).display_name = p.display_name := rfl

theorem applyRules_dt (today : ℤ) (p : PreRow) :
    (applyRules today p).last_updated_dt = p.last_updated_dt := rfl

theorem applyRules_last_updated (today : ℤ) (p : PreRow) :
    (applyRules today p).last_updated = p.last_updated := rfl

theorem applyRules_base_depth (today : ℤ) (p : PreRow) :
    (applyRules today p).base_depth = p.base_depth := rfl

theorem applyRules_summit_depth (today : ℤ) (p : PreRow) :
    (applyRules today p).summit_depth = p.summit_depth := rfl

theorem applyRules_disp (today : ℤ) (p : PreRow) :
    (applyRules today p).snow_24h_display
      = max (applyRules today p).snow_24h_summit (applyRules today p).snow_24h_base := rfl

theorem applyRules_powder (today : ℤ) (p : PreRow) :
    (applyRules today p).is_powder
      = decide ((6 : ℚ) ≤ (applyRules today p).snow_24h_display) := rfl

theorem applyRules_hr (today : ℤ) (p : PreRow) :
    (applyRules today p).has_report = decide (p.last_updated ≠ "N/A") := rfl

theorem applyRules_stale (today : ℤ) (p : PreRow)
    (h : staleMask today p.last_updated_dt = true) :
    (applyRules today p).snow_24h_summit = 0 ∧
    (applyRules today p).snow_24h_base = 0 ∧
    (applyRules today p).snow_overnight = 0 := by
  simp [applyRules, h]

theorem applyRules_fresh (today : ℤ) (p : PreRow)
    (h : staleMask today p.last_updated_dt = false) :
    (applyRules today p).snow_24h_summit = p.snow_24h_summit ∧
    (applyRules today p).snow_24h_base = p.snow_24h_base ∧
    (applyRules today p).snow_overnight = p.snow_overnight := by
  simp [applyRules, h]

theorem staleMask_false_iff (today : ℤ) (dt : Option (ℤ × ℚ)) :
    staleMask today dt = false ↔ dt.map Prod.fst = some today := by
  cases dt <;> simp [staleMask]

theorem staleMask_true_of (today : ℤ) (dt : Option (ℤ × ℚ))
    (h : dt.map Prod.fst ≠ some today) : staleMask today dt = true := by
  cases hsm : staleMask today dt
  · exact absurd ((staleMask_false_iff today dt).mp hsm) h
  · rfl

theorem mem_load_iff (parse : String → Option (ℤ × ℚ)) (today : ℤ)
    (raws : List RawReport) (row : CCRow) :
    row ∈ load_latest_data parse today raws
      ↔ row ∈ (mergedRows parse raws).map (applyRules today) :=
  (sortB_perm lepRow _).mem_iff

theorem toPre_display (parse : String → Option (ℤ × ℚ)) (m : String × ℚ × ℚ)
    (r : Option RawReport) : (toPre parse m r).display_name = m.1 := by
  cases r <;> rfl

theorem rowsFor_display (parse : String → Option (ℤ × ℚ)) (raws : List RawReport)
    (m : String × ℚ × ℚ) (pre : PreRow) (h : pre ∈ rowsFor parse raws m) :
    pre.display_name = m.1 := by
  unfold rowsFor at h
  cases hm : matchesFor raws m with
  | nil =>
    rw [hm] at h
    simp only [List.mem_singleton] at h
    subst h
    exact toPre_display _ _ _
  | cons r rs =>
    rw [hm] at h
    simp only [List.mem_map] at h
    obtain ⟨rr, _, rfl⟩ := h
    exact toPre_display _ _ _

theorem mergedRows_display (parse : String → Option (ℤ × ℚ)) (raws : List RawReport)
    (pre : PreRow) (h : pre ∈ mergedRows parse raws) :
    pre.display_name ∈ RESORTS_DATA.map (fun m => m.1) := by
  obtain ⟨m, hm, hpre⟩ := (mem_catMap _ _ _).mp h
  exact List.mem_map.mpr ⟨m, hm, (rowsFor_display _ _ _ _ hpre).symm⟩

theorem mem_merged_of_match (parse : String → Option (ℤ × ℚ)) (raws : List RawReport)
    (m : String × ℚ × ℚ) (r : RawReport) (hm : m ∈ RESORTS_DATA)
    (hr : r ∈ matchesFor raws m) :
    toPre parse m (some r) ∈ mergedRows parse raws := by
  refine (mem_catMap _ _ _).mpr ⟨m, hm, ?_⟩
  unfold rowsFor
  cases hmm : matchesFor raws m with
  | nil => rw [hmm] at hr; simp at hr
  | cons x xs =>
    rw [hmm] at hr
    exact List.mem_map.mpr ⟨r, hr, rfl⟩

theorem mem_merged_default (parse : String → Option (ℤ × ℚ)) (raws : List RawReport)
    (m : String × ℚ × ℚ) (hm : m ∈ RESORTS_DATA)
    (hempty : matchesFor raws m = []) :
    toPre parse m none ∈ mergedRows parse raws := by
  refine (mem_catMap _ _ _).mpr ⟨m, hm, ?_⟩
  unfold rowsFor
  rw [hempty]
  simp

theorem filter_len_le_one {l : List RawReport} {c : String}
    (hnd : (l.map (fun r => get_display_name r.resort)).Nodup) :
    (l.filter (fun r => decide (get_display_name r.resort = c))).length ≤ 1 := by
  induction l with
  | nil => simp
  | cons a t ih =>
    simp only [List.map_cons, List.nodup_cons] at hnd
    obtain ⟨hna, hnt⟩ := hnd
    by_cases ha : get_display_name a.resort = c
    · have ht : t.filter (fun r => decide (get_display_name r.resort = c)) = [] := by
        rw [List.filter_eq_nil_iff]
        intro x hx
        simp only [decide_eq_true_eq]
        intro hc
        exact hna (List.mem_map.mpr ⟨x, hx, hc.trans ha.symm⟩)
      simp [List.filter_cons, ha, ht]
    · simp [List.filter_cons, ha]
      exact ih hnt

theorem rowsFor_names_nodup (parse : String → Option (ℤ × ℚ)) (raws : List RawReport)
    (m : String × ℚ × ℚ)
    (hnd : (raws.map (fun r => get_display_name r.resort)).Nodup) :
    (rowsFor parse raws m).map (fun p => p.display_name) = [m.1] := by
  unfold rowsFor
  cases hmm : matchesFor raws m with
  | nil => simp [toPre_display]
  | cons r rs =>
    have hlen : (matchesFor raws m).length ≤ 1 := filter_len_le_one hnd
    rw [hmm] at hlen
    simp only [List.length_cons] at hlen
    have hrs : rs = [] := List.eq_nil_of_length_eq_zero (by omega)
    subst hrs
    simp [toPre_display]

theorem merged_names_nodup (parse : String → Option (ℤ × ℚ)) (raws : List RawReport)
    (hnd : (raws.map (fun r => get_display_name r.resort)).Nodup) :
    (mergedRows parse raws).map (fun p => p.display_name)
      = RESORTS_DATA.map (fun m => m.1) := by
  unfold mergedRows
  induction RESORTS_DATA with
  | nil => rfl
  | cons m t ih =>
    simp only [catMap, List.map_append, List.map_cons]
    rw [rowsFor_names_nodup parse raws m hnd, ih]
    rfl

/-! ### Claim C1 — totality of the current-conditions table -/

/-- C1 (amended): with a live store, provided no two raw reports resolve to
the same display name, the output table's display names are exactly the
static 17-entry master list (one row per entry, as a permutation induced
by the sort); every master entry without a matching report still appears,
with zero metrics and `has_report = false`; and with a `None` store handle
the table is the master list with defaults.  (The unamended claim also
promised exactly one row per entry for duplicate raw records; the left
join duplicates rows instead — see the counterexample.) -/
theorem C1_totality (parse : String → Option (ℤ × ℚ)) (today : ℤ)
    (raws : List RawReport) :
    ((raws.map (fun r => get_display_name r.resort)).Nodup →
      ((load_latest_data parse today raws).map (fun row => row.display_name)).Perm
        (RESORTS_DATA.map (fun m => m.1)))
    ∧ (∀ m ∈ RESORTS_DATA, matchesFor raws m = [] →
        ∃ row ∈ load_latest_data parse today raws,
          row.display_name = m.1 ∧ row.snow_24h_summit = 0 ∧
          row.snow_24h_base = 0 ∧ row.base_depth = 0 ∧ row.summit_depth = 0 ∧
          row.snow_overnight = 0 ∧ row.has_report = false)
    ∧ load_latest_data_noDB.map (fun row => row.display_name)
        = RESORTS_DATA.map (fun m => m.1) := by
  refine ⟨?_, ?_, ?_⟩
  · intro hnd
    have h2 := (sortB_perm lepRow ((mergedRows parse raws).map (applyRules today))).map
      (fun row => row.display_name)
    rw [List.map_map] at h2
    have h1 : (mergedRows parse raws).map
        ((fun row => row.display_name) ∘ applyRules today)
        = (mergedRows parse raws).map (fun p => p.display_name) :=
      List.map_congr_left (fun a _ => rfl)
    rw [h1, merged_names_nodup parse raws hnd] at h2
    exact h2
  · intro m hm hempty
    refine ⟨applyRules today (toPre parse m none),
      (mem_load_iff parse today raws _).mpr
        (List.mem_map_of_mem _ (mem_merged_default parse raws m hm hempty)), ?_⟩
    simp [applyRules, toPre]
  · rfl

/-- C1 counterexample: two raw records for one resort ("BigSky") make the
left join emit 18 rows, two of them for Big Sky — not exactly one row per
master entry. -/
theorem C1_counterexample :
    (load_latest_data parse0 0 [rawDupA, rawDupB]).length = 18 ∧
    ((load_latest_data parse0 0 [rawDupA, rawDupB]).map
      (fun row => row.display_name)).count "Big Sky" = 2 := by
  constructor
  · decide
  · decide

/-- C1 witness: at the empty feed the name multiset is the master list, and
the unmatched master head ("Snowbowl") appears with zero defaults. -/
theorem C1_witness :
    (((load_latest_data parse0 0 []).map (fun row => row.display_name)).Perm
      (RESORTS_DATA.map (fun m => m.1)))
    ∧ ∃ row ∈ load_latest_data parse0 0 [],
        row.display_name = (RESORTS_DATA.get ⟨0, by decide⟩).1 ∧
        row.snow_24h_summit = 0 ∧ row.snow_24h_base = 0 ∧ row.base_depth = 0 ∧
        row.summit_depth = 0 ∧ row.snow_overnight = 0 ∧ row.has_report = false :=
  ⟨(C1_totality parse0 0 []).1 (by decide),
   (C1_totality parse0 0 []).2.1 (RESORTS_DATA.get ⟨0, by decide⟩)
     (List.get_mem RESORTS_DATA 0 (by decide)) (by decide)⟩

/-! ### Claim C2 — staleness zeroing of snow fields -/

/-- C2 (amended): in the built table, any row whose parsed
`last_updated_dt` is null or whose calendar date differs from today (in
particular a date a full year back, or any prior-season date) has its
`snow_24h_summit`, `snow_24h_base` and `snow_overnight` equal to 0.  (The
unamended claim said all five snow-depth fields are zeroed; the code never
zeroes `base_depth` or `summit_depth` — see the counterexample.  There is
no season-start rule in the code: the single freshness rule zeroes on any
date other than today.) -/
theorem C2_stale_zeroing (parse : String → Option (ℤ × ℚ)) (today : ℤ)
    (raws : List RawReport) (row : CCRow)
    (hrow : row ∈ load_latest_data parse today raws)
    (hstale : row.last_updated_dt.map Prod.fst ≠ some today) :
    row.snow_24h_summit = 0 ∧ row.snow_24h_base = 0 ∧ row.snow_overnight = 0 := by
  obtain ⟨pre, hpre, rfl⟩ :=
    List.mem_map.mp ((mem_load_iff parse today raws row).mp hrow)
  simp only [applyRules_dt] at hstale
  exact applyRules_stale today pre (staleMask_true_of today _ hstale)

/-- C2 counterexample: a report one full year stale (parsed day 635 against
today = 1000) keeps `base_depth = 50` and `summit_depth = 60`; only the
24h/overnight fields are zeroed, so "all five snow-depth fields are
exactly 0" fails. -/
theorem C2_counterexample :
    ((load_latest_data parseC2 1000 [rawC2]).filter
      (fun row => decide (row.display_name = "Big Sky"))).map
        (fun row => (row.last_updated_dt, row.base_depth, row.summit_depth,
          row.snow_24h_summit))
      = [(some ((635 : ℤ), (8 : ℚ)), (50 : ℚ), (60 : ℚ), (0 : ℚ))] := by
  decide

/-- C2 witness: the first row of the empty-feed table has a null parse and
zeroed 24h/overnight fields. -/
theorem C2_witness :
    (outEmpty.get ⟨0, by decide⟩).snow_24h_summit = 0 ∧
    (outEmpty.get ⟨0, by decide⟩).snow_24h_base = 0 ∧
    (outEmpty.get ⟨0, by decide⟩).snow_overnight = 0 :=
  C2_stale_zeroing parse0 0 [] _ (List.get_mem outEmpty 0 (by decide)) (by decide)

/-! ### Claim C3 — calendar-day freshness rule -/

/-- C3 (amended): every merged row reaches the output with its
24h/overnight fields kept exactly when its parsed calendar date equals
today (at any hour), and zeroed whenever the date differs from today —
which zeroes dates strictly before today but also dates after today.
(The unamended claim said the fields are zeroed only for dates strictly
before today and left unchanged for later dates; the code compares with
`!=`, so a future-dated report is zeroed too — see the counterexample.) -/
theorem C3_freshness (parse : String → Option (ℤ × ℚ)) (today : ℤ)
    (raws : List RawReport) (pre : PreRow)
    (hpre : pre ∈ mergedRows parse raws) :
    ∃ row ∈ load_latest_data parse today raws,
      row.display_name = pre.display_name ∧
      row.last_updated_dt = pre.last_updated_dt ∧
      (pre.last_updated_dt.map Prod.fst = some today →
        row.snow_24h_summit = pre.snow_24h_summit ∧
        row.snow_24h_base = pre.snow_24h_base ∧
        row.snow_overnight = pre.snow_overnight) ∧
      (pre.last_updated_dt.map Prod.fst ≠ some today →
        row.snow_24h_summit = 0 ∧ row.snow_24h_base = 0 ∧
        row.snow_overnight = 0) := by
  refine ⟨applyRules today pre,
    (mem_load_iff parse today raws _).mpr (List.mem_map_of_mem _ hpre),
    rfl, rfl, ?_, ?_⟩
  · intro hfresh
    exact applyRules_fresh today pre ((staleMask_false_iff today _).mpr hfresh)
  · intro hstale
    exact applyRules_stale today pre (staleMask_true_of today _ hstale)

/-- C3 counterexample: a report dated tomorrow (parsed day 1001 against
today = 1000) has its `snow_24h_summit` zeroed from 10 to 0, though the
claim says reports on a later date are left unchanged. -/
theorem C3_counterexample :
    ((load_latest_data parseC3 1000 [rawC3]).filter
      (fun row => decide (row.display_name = "Big Sky"))).map
        (fun row => (row.last_updated_dt, row.snow_24h_summit))
      = [(some ((1001 : ℤ), (10 : ℚ)), (0 : ℚ))] := by
  decide

/-- C3 witness: a same-day report (day 900 at hour 6, today = 900) keeps
its 24h fields 7 and 5. -/
theorem C3_witness :
    ∃ row ∈ load_latest_data parseW3 900 [rawW3],
      row.display_name
          = (toPre parseW3 (RESORTS_DATA.get ⟨9, by decide⟩) (some rawW3)).display_name ∧
      row.last_updated_dt
          = (toPre parseW3 (RESORTS_DATA.get ⟨9, by decide⟩) (some rawW3)).last_updated_dt ∧
      ((toPre parseW3 (RESORTS_DATA.get ⟨9, by decide⟩) (some rawW3)).last_updated_dt.map
          Prod.fst = some 900 →
        row.snow_24h_summit
            = (toPre parseW3 (RESORTS_DATA.get ⟨9, by decide⟩) (some rawW3)).snow_24h_summit ∧
        row.snow_24h_base
            = (toPre parseW3 (RESORTS_DATA.get ⟨9, by decide⟩) (some rawW3)).snow_24h_base ∧
        row.snow_overnight
            = (toPre parseW3 (RESORTS_DATA.get ⟨9, by decide⟩) (some rawW3)).snow_overnight) ∧
      ((toPre parseW3 (RESORTS_DATA.get ⟨9, by decide⟩) (some rawW3)).last_updated_dt.map
          Prod.fst ≠ some 900 →
        row.snow_24h_summit = 0 ∧ row.snow_24h_base = 0 ∧ row.snow_overnight = 0) :=
  C3_freshness parseW3 900 [rawW3] _
    (mem_merged_of_match parseW3 [rawW3] (RESORTS_DATA.get ⟨9, by decide⟩) rawW3
      (List.get_mem RESORTS_DATA 9 (by decide)) (by decide))

/-! ### Claim C4 — display snow amount and powder flag -/

/-- C4: in every output row (live-store path and `None`-store path alike),
the display snow amount is the maximum of the post-staleness 24h summit
and base fields of that row, and `is_powder` holds exactly when that
display amount is at least 6 — so 5.999 is not powder while 6 and 6.001
are, and the flag never sees raw unadjusted values. -/
theorem C4_powder (parse : String → Option (ℤ × ℚ)) (today : ℤ)
    (raws : List RawReport) :
    (∀ row ∈ load_latest_data parse today raws,
        row.snow_24h_display = max row.snow_24h_summit row.snow_24h_base ∧
        (row.is_powder = true ↔ (6 : ℚ) ≤ row.snow_24h_display)) ∧
    (∀ row ∈ load_latest_data_noDB,
        row.snow_24h_display = max row.snow_24h_summit row.snow_24h_base ∧
        (row.is_powder = true ↔ (6 : ℚ) ≤ row.snow_24h_display)) := by
  constructor
  · intro row hrow
    obtain ⟨pre, hpre, rfl⟩ :=
      List.mem_map.mp ((mem_load_iff parse today raws row).mp hrow)
    refine ⟨applyRules_disp today pre, ?_⟩
    rw [applyRules_powder]
    exact decide_eq_true_iff
  · intro row hrow
    obtain ⟨m, hm, rfl⟩ := List.mem_map.mp hrow
    constructor
    · simp
    · simp

/-- C4 witness: with a fresh report of summit 7 / base 5, the first output
row shows display snow `max 7 5`, the powder equivalence, and the flag set. -/
theorem C4_witness :
    ((load_latest_data parseW3 900 [rawW3]).get ⟨0, by decide⟩).snow_24h_display
        = max ((load_latest_data parseW3 900 [rawW3]).get ⟨0, by decide⟩).snow_24h_summit
            ((load_latest_data parseW3 900 [rawW3]).get ⟨0, by decide⟩).snow_24h_base ∧
    (((load_latest_data parseW3 900 [rawW3]).get ⟨0, by decide⟩).is_powder = true ↔
        (6 : ℚ) ≤ ((load_latest_data parseW3 900 [rawW3]).get ⟨0, by decide⟩).snow_24h_display) ∧
    ((load_latest_data parseW3 900 [rawW3]).get ⟨0, by decide⟩).is_powder = true :=
  ⟨((C4_powder parseW3 900 [rawW3]).1 _
      (List.get_mem (load_latest_data parseW3 900 [rawW3]) 0 (by decide))).1,
   ((C4_powder parseW3 900 [rawW3]).1 _
      (List.get_mem (load_latest_data parseW3 900 [rawW3]) 0 (by decide))).2,
   by decide⟩

/-! ### Claim C6 — the `has_report` flag -/

/-- C6 (amended): in the built table `has_report` holds exactly when the
row's (filled) `last_updated` string differs from `"N/A"`; every master
entry with no matching report still appears, with `has_report = false`, a
null parse and zeroed metrics.  (The unamended claim tied `has_report` to
the existence of a matching raw report and to the parseability of
`last_updated_dt`; a matching report whose `last_updated` is present but
unparseable gets `has_report = true` with a null `last_updated_dt` — see
the counterexample.) -/
theorem C6_has_report (parse : String → Option (ℤ × ℚ)) (today : ℤ)
    (raws : List RawReport) (hNA : parse "N/A" = none) :
    (∀ row ∈ load_latest_data parse today raws,
        (row.has_report = true ↔ row.last_updated ≠ "N/A")) ∧
    (∀ m ∈ RESORTS_DATA, matchesFor raws m = [] →
        ∃ row ∈ load_latest_data parse today raws,
          row.display_name = m.1 ∧ row.has_report = false ∧
          row.last_updated_dt = none ∧ row.snow_24h_summit = 0 ∧
          row.snow_24h_base = 0 ∧ row.base_depth = 0 ∧ row.summit_depth = 0 ∧
          row.snow_overnight = 0) := by
  constructor
  · intro row hrow
    obtain ⟨pre, hpre, rfl⟩ :=
      List.mem_map.mp ((mem_load_iff parse today raws row).mp hrow)
    rw [applyRules_hr, applyRules_last_updated]
    exact decide_eq_true_iff
  · intro m hm hempty
    refine ⟨applyRules today (toPre parse m none),
      (mem_load_iff parse today raws _).mpr
        (List.mem_map_of_mem _ (mem_merged_default parse raws m hm hempty)), ?_⟩
    simp [applyRules, toPre, hNA]

/-- C6 counterexample: a matching report whose `last_updated` is the
unparseable string "garbage" yields `has_report = true` together with a
null `last_updated_dt` — the claim wanted `has_report = false` for every
row with an unparseable timestamp. -/
theorem C6_counterexample :
    ((load_latest_data parse0 0 [rawC6]).filter
      (fun row => decide (row.display_name = "Big Sky"))).map
        (fun row => (row.has_report, row.last_updated_dt, row.last_updated))
      = [(true, none, "garbage")] := by
  decide

/-- C6 witness: with the "garbage" report, the first row satisfies the
`has_report` equivalence, and the unmatched master head ("Snowbowl")
appears with `has_report = false`, a null parse and zeroed metrics. -/
theorem C6_witness :
    (((load_latest_data parse0 0 [rawC6]).get ⟨0, by decide⟩).has_report = true ↔
        ((load_latest_data parse0 0 [rawC6]).get ⟨0, by decide⟩).last_updated ≠ "N/A") ∧
    ∃ row ∈ load_latest_data parse0 0 [rawC6],
      row.display_name = (RESORTS_DATA.get ⟨0, by decide⟩).1 ∧
      row.has_report = false ∧ row.last_updated_dt = none ∧
      row.snow_24h_summit = 0 ∧ row.snow_24h_base = 0 ∧ row.base_depth = 0 ∧
      row.summit_depth = 0 ∧ row.snow_overnight = 0 :=
  ⟨(C6_has_report parse0 0 [rawC6] rfl).1 _
      (List.get_mem (load_latest_data parse0 0 [rawC6]) 0 (by decide)),
   (C6_has_report parse0 0 [rawC6] rfl).2 (RESORTS_DATA.get ⟨0, by decide⟩)
      (List.get_mem RESORTS_DATA 0 (by decide)) (by decide)⟩

/-! ### Claim C7 — ordering of the final table -/

/-- C7 (amended): the final table is sorted by the three-column key —
`has_report` descending, then parsed report date descending with null
dates last, then display snow descending — as a permutation of the merged
rows, and the sort is stable: rows with equal keys keep their merged
(master-list/feed) order.  There is no display-name tie-break.  (The
unamended claim asserted a lexicographic display-name tie-break among
equal-key rows; the code's stable sort keeps master-list order instead —
see the counterexample.) -/
theorem C7_ordering (parse : String → Option (ℤ × ℚ)) (today : ℤ)
    (raws : List RawReport) :
    List.Pairwise (fun u v => keyLE (rowKey u) (rowKey v) = true)
      (load_latest_data parse today raws) ∧
    (load_latest_data parse today raws).Perm
      ((mergedRows parse raws).map (applyRules today)) ∧
    ∀ k : Bool × Option ℤ × ℚ,
      (load_latest_data parse today raws).filter (fun row => decide (rowKey row = k))
        = ((mergedRows parse raws).map (applyRules today)).filter
            (fun row => decide (rowKey row = k)) := by
  refine ⟨?_, sortB_perm lepRow _, ?_⟩
  · exact pairwise_sortB lepRow (fun x y => keyLE_total (rowKey x) (rowKey y))
      (fun x y z => keyLE_trans (rowKey x) (rowKey y) (rowKey z)) _
  · intro k
    exact filter_sortB keyLE rowKey keyLE_refl _ k

/-- C7 counterexample: with an empty feed all 17 rows have equal sort keys,
yet "Snowbowl" is row 0 and "Bear Paw" row 13 (master-list order), even
though "Bear Paw" is lexicographically smaller — no display-name
tie-break is applied. -/
theorem C7_counterexample :
    outEmpty.length = 17 ∧
    rowKey (outEmpty.get ⟨0, by decide⟩) = rowKey (outEmpty.get ⟨13, by decide⟩) ∧
    (outEmpty.get ⟨0, by decide⟩).display_name = "Snowbowl" ∧
    (outEmpty.get ⟨13, by decide⟩).display_name = "Bear Paw" ∧
    lexLt "Bear Paw".data "Snowbowl".data = true := by
  refine ⟨by decide, by decide, by decide, by decide, by decide⟩

/-! ### Claim C8 — name resolution totality and passthrough -/

/-- C8 (amended): `get_display_name` is a total deterministic function that
returns identifiers absent from the table unchanged; however the final
current-conditions table is keyed by the master list, so every output row
carries a master-list display name — a raw record with an unknown
identifier keeps its raw identifier as display name in the fetched frame
but is dropped by the left join and does not appear in the output.  (The
unamended claim said such a record appears in the output under its raw
identifier — see the counterexample.) -/
theorem C8_passthrough (s : String) (hs : s ∉ nameMapKeys)
    (parse : String → Option (ℤ × ℚ)) (today : ℤ) (raws : List RawReport)
    (row : CCRow) (hrow : row ∈ load_latest_data parse today raws) :
    get_display_name s = s ∧
    row.display_name ∈ RESORTS_DATA.map (fun m => m.1) := by
  constructor
  · unfold get_display_name
    have hnone : name_map.find? (fun p => p.1 == s) = none := by
      rw [List.find?_eq_none]
      intro p hp
      simp only [beq_iff_eq]
      intro he
      exact hs (List.mem_map.mpr ⟨p, hp, he⟩)
    rw [hnone]
    rfl
  · obtain ⟨pre, hpre, rfl⟩ :=
      List.mem_map.mp ((mem_load_iff parse today raws row).mp hrow)
    rw [applyRules_display_name]
    exact mergedRows_display parse raws pre hpre

/-- C8 counterexample: a raw record for the unknown identifier "CrystalMtn"
resolves to itself, yet the output table still has 17 rows and none of
them is named "CrystalMtn" — the record does not appear in the output. -/
theorem C8_counterexample :
    get_display_name "CrystalMtn" = "CrystalMtn" ∧
    (load_latest_data parse0 0 [rawC8]).length = 17 ∧
    ((load_latest_data parse0 0 [rawC8]).map
      (fun row => row.display_name)).count "CrystalMtn" = 0 := by
  refine ⟨by decide, by decide, by decide⟩

/-- C8 witness: the unknown identifier "CrystalMtn" passes through
unchanged, and the first empty-feed row carries a master-list name. -/
theorem C8_witness :
    get_display_name "CrystalMtn" = "CrystalMtn" ∧
    (outEmpty.get ⟨0, by decide⟩).display_name
      ∈ RESORTS_DATA.map (fun m => m.1) :=
  C8_passthrough "CrystalMtn" (by decide) parse0 0 [] _
    (List.get_mem outEmpty 0 (by decide))

/-! ### Claim C9 — idempotence of name resolution -/

/-- C9: `get_display_name` is idempotent — applying it twice gives the same
result as applying it once, because every display name the table produces
maps to itself (either it is not a key, or it is a key bound to itself). -/
theorem C9_idempotent (s : String) :
    get_display_name (get_display_name s) = get_display_name s := by
  have hall : ∀ p ∈ name_map, get_display_name p.2 = p.2 := by decide
  cases h : name_map.find? (fun p => p.1 == s) with
  | none =>
    have h1 : get_display_name s = s := by
      unfold get_display_name
      rw [h]
      rfl
    rw [h1]
    exact h1
  | some pr =>
    have h1 : get_display_name s = pr.2 := by
      unfold get_display_name
      rw [h]
      rfl
    rw [h1]
    exact hall pr (List.mem_of_find?_eq_some h)

/-! ### Claim C5 — the trailing-5-day chart series -/

theorem dedupFirst_nodup (l : List String) : (dedupFirst l).Nodup := by
  induction l with
  | nil => simp [dedupFirst]
  | cons x t ih =>
    simp only [dedupFirst, List.nodup_cons]
    constructor
    · intro hx
      have := List.of_mem_filter hx
      simp at this
    · exact ih.filter _

theorem mkPt_display (hist : List HistRec) (r : String) (d : ℤ) :
    (mkPt hist r d).display_name = r := rfl

theorem basePoints_names (today : ℤ) (hist : List HistRec) (resorts : List String)
    (p : ChartPoint) (hp : p ∈ basePoints today hist resorts) :
    p.display_name ∈ resorts := by
  obtain ⟨r, hr, hpr⟩ := (mem_catMap _ _ _).mp hp
  obtain ⟨d, _, rfl⟩ := List.mem_map.mp hpr
  exact hr

theorem basePoints_filter (today : ℤ) (hist : List HistRec) (resorts : List String)
    (hn : resorts.Nodup) (r : String) (hr : r ∈ resorts) :
    (basePoints today hist resorts).filter (fun p => decide (p.display_name = r))
      = (chartDays today).map (mkPt hist r) := by
  induction resorts with
  | nil => simp at hr
  | cons r0 rest ih =>
    simp only [List.nodup_cons] at hn
    obtain ⟨hr0, hrest⟩ := hn
    have hsplit : basePoints today hist (r0 :: rest)
        = (chartDays today).map (mkPt hist r0) ++ basePoints today hist rest := rfl
    rw [hsplit, List.filter_append]
    rcases List.mem_cons.mp hr with rfl | hrr
    · have h1 : ((chartDays today).map (mkPt hist r)).filter
          (fun p => decide (p.display_name = r)) = (chartDays today).map (mkPt hist r) := by
        rw [List.filter_eq_self]
        intro p hp
        obtain ⟨d, _, rfl⟩ := List.mem_map.mp hp
        simp [mkPt_display]
      have h2 : (basePoints today hist rest).filter
          (fun p => decide (p.display_name = r)) = [] := by
        rw [List.filter_eq_nil_iff]
        intro p hp
        have := basePoints_names today hist rest p hp
        simp only [decide_eq_true_eq]
        intro he
        exact hr0 (he ▸ this)
      rw [h1, h2, List.append_nil]
    · have hne : r ≠ r0 := fun he => hr0 (he ▸ hrr)
      have h1 : ((chartDays today).map (mkPt hist r0)).filter
          (fun p => decide (p.display_name = r)) = [] := by
        rw [List.filter_eq_nil_iff]
        intro p hp
        obtain ⟨d, _, rfl⟩ := List.mem_map.mp hp
        simp [mkPt_display, Ne.symm hne]
      rw [h1, List.nil_append]
      exact ih hrest hrr

theorem withTotals_filter (base : List ChartPoint) (r : String) :
    (withTotals base).filter (fun p => decide (p.display_name = r))
      = (base.filter (fun p => decide (p.display_name = r))).map (attachTotal base) := by
  unfold withTotals
  rw [List.filter_map]
  congr 1

/-- C5 (amended): provided both the history frame and the current table are
nonempty, every resort of the (deduplicated) current list gets exactly the
five points for days `today-4 .. today`, oldest to newest; each point's
snow value is the code's per-day rule (the Python-float `max` of the
uncoerced summit/base cells of the first record with that query date — a
`NaN` summit cell makes the maximum `NaN` — kept only when it is a number
greater than 0 and the record's own `last_updated` falls on that day, else
0); and each point carries the sum of its resort's five values as total.
(The unamended claim promised five points unconditionally; with an empty
history frame the function returns an empty frame — see the counterexample
— and it asserted the raw maximum unconditionally where the code requires
positivity and propagates `NaN` from a missing summit cell.) -/
theorem C5_daily_series (today : ℤ) (hist : List HistRec) (current : List CCRow)
    (h1 : hist ≠ []) (h2 : current ≠ [])
    (r : String) (hr : r ∈ dedupFirst (current.map (fun c => c.display_name))) :
    ((prepare_chart_data today hist current).filter
        (fun p => decide (p.display_name = r))).map (fun p => (p.date, p.snow))
      = (chartDays today).map (fun d => (d, dayValue hist r d)) ∧
    ∀ p ∈ (prepare_chart_data today hist current).filter
        (fun p => decide (p.display_name = r)),
      p.total_snow = ((chartDays today).map (dayValue hist r)).sum := by
  have he1 : hist.isEmpty = false := by
    cases hist with
    | nil => exact absurd rfl h1
    | cons a t => rfl
  have he2 : current.isEmpty = false := by
    cases current with
    | nil => exact absurd rfl h2
    | cons a t => rfl
  have hprep : prepare_chart_data today hist current
      = withTotals (basePoints today hist
          (dedupFirst (current.map (fun c => c.display_name)))) := by
    unfold prepare_chart_data
    rw [he1, he2]
    rfl
  have hnd := dedupFirst_nodup (current.map (fun c => c.display_name))
  have hbase := basePoints_filter today hist
    (dedupFirst (current.map (fun c => c.display_name))) hnd r hr
  constructor
  · rw [hprep, withTotals_filter, hbase, List.map_map, List.map_map]
    apply List.map_congr_left
    intro d _
    rfl
  · intro p hp
    rw [hprep, withTotals_filter] at hp
    obtain ⟨q, hq, rfl⟩ := List.mem_map.mp hp
    have hqr : q.display_name = r := by
      have := List.of_mem_filter hq
      simpa using this
    simp only [attachTotal]
    rw [hqr, hbase, List.map_map]
    rfl

/-- C5 counterexample: with an empty raw history the aggregator returns an
empty frame, so the resort "Big Sky" of the (nonempty) current table gets
zero points instead of the promised five. -/
theorem C5_counterexample :
    prepare_chart_data 0 ([] : List HistRec) [ccW] = [] ∧
    [ccW].map (fun c => c.display_name) = ["Big Sky"] := by
  refine ⟨by decide, by decide⟩

unseal Rat.add in
/-- C5 witness: one Big Sky record on query day 0 reported the same day
yields the five points for days -4..0 with snow 0,0,0,0,4 and total 4 on
every point; and in the frame `histN`, where the Big Sky document lacks
its summit field while another document supplies that column, the `NaN`
summit cell poisons the maximum and day 0 charts 0 despite the positive
base value 5. -/
theorem C5_witness :
    (((prepare_chart_data 0 histW [ccW]).filter
        (fun p => decide (p.display_name = "Big Sky"))).map (fun p => (p.date, p.snow))
      = (chartDays 0).map (fun d => (d, dayValue histW "Big Sky" d))) ∧
    (∀ p ∈ (prepare_chart_data 0 histW [ccW]).filter
        (fun p => decide (p.display_name = "Big Sky")),
      p.total_snow = ((chartDays 0).map (dayValue histW "Big Sky")).sum) ∧
    (prepare_chart_data 0 histW [ccW]).map (fun p => (p.date, p.snow, p.total_snow))
      = [(-4, 0, 4), (-3, 0, 4), (-2, 0, 4), (-1, 0, 4), (0, 4, 4)] ∧
    (prepare_chart_data 0 histN [ccW]).map (fun p => (p.date, p.snow, p.total_snow))
      = [(-4, 0, 0), (-3, 0, 0), (-2, 0, 0), (-1, 0, 0), (0, 0, 0)] :=
  ⟨(C5_daily_series 0 histW [ccW] (by decide) (by decide) "Big Sky" (by decide)).1,
   (C5_daily_series 0 histW [ccW] (by decide) (by decide) "Big Sky" (by decide)).2,
   by decide, by decide⟩

/-! ### Claim C10 — the SNOTEL history reshaper -/

theorem processEntries_hourly (prev : Option ℚ) (l : List HistEntry)
    (row : SnotelRow) (h : row ∈ processEntries prev l) : 0 ≤ row.hourly_snow := by
  induction l generalizing prev with
  | nil => simp [processEntries] at h
  | cons e rest ih =>
    simp only [processEntries] at h
    split at h
    · exact ih prev h
    · rcases List.mem_cons.mp h with rfl | h2
      · show 0 ≤ hourlyFrom prev e.snow_depth
        unfold hourlyFrom
        rcases prev with _ | p
        · simp
        · rcases e.snow_depth with _ | dep
          · simp
          · simp only []
            split
            · linarith
            · exact le_refl 0
      · exact ih _ h2

theorem processEntries_times (prev : Option ℚ) (l : List HistEntry) :
    (processEntries prev l).map (fun row => row.time) = l.filterMap entryTime := by
  induction l generalizing prev with
  | nil => rfl
  | cons e rest ih =>
    simp only [processEntries, List.filterMap_cons]
    cases he : entryTime e with
    | none => simp only [he]; exact ih prev
    | some dt => simp only [he, List.map_cons]; rw [ih]

/-- C10 (amended): for every input history list, every reshaped row has
`hourly_snow ≥ 0` (depth decreases clamp to 0); entries with a missing,
empty or unparseable timestamp are skipped without failing (the output has
exactly one row per parseable entry); and the rows come out in
nondecreasing order of the entries' timestamp *strings* — the code's sort
key — which coincides with chronological order for canonical zero-padded
timestamps but not in general.  (The unamended claim promised
nondecreasing *timestamp* order; strptime also accepts non-zero-padded
timestamps, whose string order disagrees with time order — see the
counterexample.) -/
theorem C10_snotel (hist : List HistEntry) :
    (∀ row ∈ parse_snotel_history hist, 0 ≤ row.hourly_snow) ∧
    List.Pairwise (fun e1 e2 => lexLe (tsKeyOf e1) (tsKeyOf e2) = true)
      (sortHist hist) ∧
    (parse_snotel_history hist).map (fun row => row.time)
        = (sortHist hist).filterMap entryTime ∧
    (parse_snotel_history hist).length = (hist.filterMap entryTime).length := by
  refine ⟨?_, ?_, processEntries_times none (sortHist hist), ?_⟩
  · intro row hrow
    exact processEntries_hourly none _ row hrow
  · exact pairwise_sortB lepHist (fun x y => lexLe_total _ _)
      (fun x y z => lexLe_trans _ _ _) _
  · have h2 : (parse_snotel_history hist).length
        = ((sortHist hist).filterMap entryTime).length := by
      rw [← processEntries_times none (sortHist hist), List.length_map]
      rfl
    rw [h2]
    exact ((sortB_perm lepHist hist).filterMap entryTime).length_eq

unseal Rat.sub in
/-- C10 counterexample: strptime accepts "2025-9-01 10:00" (September, not
zero-padded), but as a string it sorts after "2025-10-01 10:00"; the two
entries come out with the October reading first and the September reading
second — timestamps in decreasing chronological order. -/
theorem C10_counterexample :
    (parse_snotel_history histC10).map (fun row => row.time)
      = [{ year := 2025, month := 10, day := 1, hour := 10, minute := 0 },
         { year := 2025, month := 9, day := 1, hour := 10, minute := 0 }] ∧
    chronKey { year := 2025, month := 9, day := 1, hour := 10, minute := 0 }
      < chronKey { year := 2025, month := 10, day := 1, hour := 10, minute := 0 } := by
  refine ⟨by decide, by decide⟩

unseal Rat.sub in
/-- C10 witness: two same-day hourly readings with depth rising from 10 to
12 give rows with hourly snow 0 and 2, both nonnegative. -/
theorem C10_witness :
    0 ≤ ((parse_snotel_history histW10).get ⟨1, by decide⟩).hourly_snow ∧
    (parse_snotel_history histW10).map (fun row => row.hourly_snow) = [0, 2] :=
  ⟨(C10_snotel histW10).1 _
      (List.get_mem (parse_snotel_history histW10) 1 (by decide)),
   by decide⟩
